import Mathlib

/-!
# Verification of the property-listings cache-aside core

Shallow embedding of the `properties` Django app: the `Property` data
model (`models.py`), the cache populator `get_all_properties`, the
metrics collector `get_redis_cache_metrics`, the query filter engine
`get_properties_by_filters`, the country-code resolver
`get_country_code`, the favorite-status mutation
`update_property_favorite_status` (`utils.py`), and the signal-based
invalidation handlers (`signals.py`).

Conventions: timestamps are naturals, prices are rationals (the source
stores `DecimalField` values), the catalog store is a list of records in
table order, the single `all_properties` cache slot is an `Option`, and
cache/store reachability is an explicit boolean so that the source's
exception paths become `Except` values.
-/

/-- The `Property` model of `models.py` (the fields the core reads). -/
structure Property where
  id : Nat
  title : String
  description : String
  price_per_night : ℚ
  bedrooms : Int
  bathrooms : Int
  guests : Int
  country : String
  country_code : String
  category : String
  favorited : Bool
  created_at : Nat
  deriving DecidableEq, Repr

/-- ASCII lowering of a single character code (`str.lower()` on the
alphabet the source's data uses). -/
def lowerCode (c : Char) : Nat :=
  if 65 ≤ c.toNat ∧ c.toNat ≤ 90 then c.toNat + 32 else c.toNat

/-- `str.lower()` as a list of character codes. -/
def lowerCodes (s : String) : List Nat := s.data.map lowerCode

/-- `containsSub needle hay` holds when `needle` occurs contiguously in
`hay` (Python's `in` on strings, empty needle always found). -/
def containsSub (needle : List Nat) : List Nat → Bool
  | [] => needle.isEmpty
  | c :: rest => needle.isPrefixOf (c :: rest) || containsSub needle rest

/-- Django's `field__icontains=needle`: case-insensitive substring test. -/
def icontains (field needle : String) : Bool :=
  containsSub (lowerCodes needle) (lowerCodes field)

/-- `Meta.ordering = ['-created_at']` of `models.py`: the comparison the
store applies when a queryset is evaluated (no secondary key). -/
def createdDesc (a b : Property) : Prop := b.created_at ≤ a.created_at

instance : DecidableRel createdDesc := fun a b =>
  inferInstanceAs (Decidable (b.created_at ≤ a.created_at))

instance : IsTotal Property createdDesc :=
  ⟨fun a b => Nat.le_total b.created_at a.created_at⟩

instance : IsTrans Property createdDesc :=
  ⟨fun _ _ _ h1 h2 => Nat.le_trans h2 h1⟩

/-- Evaluating a queryset under the model's default ordering: sort the
rows by `created_at` descending, ties left in table order. -/
def orderByCreatedAtDesc (l : List Property) : List Property :=
  l.insertionSort createdDesc

/-- The filter dictionary taken by `get_properties_by_filters`; `none`
stands for an absent key (Python `filters.get(k)` yielding `None`). -/
structure FilterSpec where
  category : Option String := none
  min_price : Option ℚ := none
  max_price : Option ℚ := none
  bedrooms : Option Int := none
  bathrooms : Option Int := none
  guests : Option Int := none
  country : Option String := none
  favorited : Option Bool := none
  search : Option String := none
  deriving DecidableEq, Repr

/-- Python truthiness of an optional string (`if filters.get(k):`). -/
def truthyStr : Option String → Bool
  | some s => !s.isEmpty
  | none => false

/-- Python truthiness of an optional integer (`if filters.get(k):`). -/
def truthyInt : Option Int → Bool
  | some n => n != 0
  | none => false

/-- `utils.py` 187-189: `if filters.get('category'):
queryset.filter(category=...)` — active only on a truthy (non-empty)
value, then an exact match. -/
def codeCategoryTest (cat : Option String) (pcat : String) : Bool :=
  if truthyStr cat then pcat == cat.getD "" else true

/-- `utils.py` 194-195: `if min_price is not None:
queryset.filter(price_per_night__gte=min_price)` — inclusive lower
bound, active whenever the key is present. -/
def priceMinTest (mp : Option ℚ) (price : ℚ) : Bool :=
  match mp with
  | some v => v ≤ price
  | none => true

/-- `utils.py` 196-197: `price_per_night__lte=max_price`, inclusive
upper bound, active whenever the key is present. -/
def priceMaxTest (mp : Option ℚ) (price : ℚ) : Bool :=
  match mp with
  | some v => price ≤ v
  | none => true

/-- `utils.py` 200-209: `if filters.get('bedrooms'):
queryset.filter(bedrooms__gte=...)` (same shape for bathrooms and
guests) — active only on a truthy (non-zero) value, then an inclusive
minimum. -/
def codeIntMinTest (n : Option Int) (v : Int) : Bool :=
  if truthyInt n then n.getD 0 ≤ v else true

/-- `utils.py` 212-213: `if filters.get('country'):
queryset.filter(country__icontains=...)`. -/
def codeCountryTest (c : Option String) (pcountry : String) : Bool :=
  if truthyStr c then icontains pcountry (c.getD "") else true

/-- `utils.py` 216-217: `if filters.get('favorited') is not None:
queryset.filter(favorited=...)` — exact boolean match. -/
def favoritedTest (b : Option Bool) (pfav : Bool) : Bool :=
  match b with
  | some fb => pfav == fb
  | none => true

/-- The predicate chain of `get_properties_by_filters` for the eight
steps that evaluate (`utils.py` 187-217) applied to one row: each
`queryset.filter(...)` step keeps the row exactly when the corresponding
test passes, the steps in source order. The ninth step — the search
branch at lines 220-226 — never contributes a predicate because its body
raises before building one (see `get_properties_by_filters`). -/
def matchesFilters (filters : FilterSpec) (p : Property) : Bool :=
  codeCategoryTest filters.category p.category &&
  priceMinTest filters.min_price p.price_per_night &&
  priceMaxTest filters.max_price p.price_per_night &&
  codeIntMinTest filters.bedrooms p.bedrooms &&
  codeIntMinTest filters.bathrooms p.bathrooms &&
  codeIntMinTest filters.guests p.guests &&
  codeCountryTest filters.country p.country &&
  favoritedTest filters.favorited p.favorited

/-- `get_properties_by_filters` (`utils.py` 181-228): `Property.objects.all()`
successively narrowed by each active filter. The search branch
(`if filters.get('search'):`, lines 220-226) evaluates `models.Q(...)`,
but `utils.py` never binds the name `models` (its only model import is
`from .models import Property`), so any truthy search term raises
`NameError` and nothing is returned; otherwise the queryset is evaluated
under the model's default ordering `['-created_at']`. `db` is the
catalog store in table order. -/
def get_properties_by_filters (filters : FilterSpec) (db : List Property) :
    Except String (List Property) :=
  if truthyStr filters.search then
    .error "NameError: name 'models' is not defined"
  else
    .ok (orderByCreatedAtDesc (db.filter (matchesFilters filters)))

/-- Spec §4.3 category predicate: exact match whenever present. -/
def specCategoryTest (cat : Option String) (pcat : String) : Bool :=
  match cat with
  | some c => pcat == c
  | none => true

/-- Spec §4.3 bedrooms/bathrooms/guests predicate: inclusive minimum
whenever present. -/
def specIntMinTest (n : Option Int) (v : Int) : Bool :=
  match n with
  | some m => m ≤ v
  | none => true

/-- Spec §4.3 country predicate: case-insensitive substring match
whenever present. -/
def specCountryTest (c : Option String) (pcountry : String) : Bool :=
  match c with
  | some v => icontains pcountry v
  | none => true

/-- Spec §4.3 search predicate: case-insensitive substring match against
title OR description OR country, whenever present. -/
def specSearchTest (t : Option String) (p : Property) : Bool :=
  match t with
  | some v => icontains p.title v || icontains p.description v || icontains p.country v
  | none => true

/-- The specification's reading of §4.3: the conjunction of all present
predicates, a field being present exactly when it is `some` value, an
absent field imposing no constraint (min_price/max_price and favorited
read identically in spec and source, so those tests are shared). -/
def satisfiesSpecFilters (filters : FilterSpec) (p : Property) : Bool :=
  specCategoryTest filters.category p.category &&
  priceMinTest filters.min_price p.price_per_night &&
  priceMaxTest filters.max_price p.price_per_night &&
  specIntMinTest filters.bedrooms p.bedrooms &&
  specIntMinTest filters.bathrooms p.bathrooms &&
  specIntMinTest filters.guests p.guests &&
  specCountryTest filters.country p.country &&
  favoritedTest filters.favorited p.favorited &&
  specSearchTest filters.search p


instance {ε α : Type} [DecidableEq ε] [DecidableEq α] : DecidableEq (Except ε α) :=
  fun x y =>
    match x, y with
    | .ok a, .ok b =>
      if h : a = b then isTrue (by rw [h]) else isFalse (by simp [h])
    | .error a, .error b =>
      if h : a = b then isTrue (by rw [h]) else isFalse (by simp [h])
    | .ok _, .error _ => isFalse (by simp)
    | .error _, .ok _ => isFalse (by simp)

/-- One cached value together with the TTL (seconds) it was stored with. -/
structure CacheEntry where
  value : List Property
  ttl : Nat
  deriving DecidableEq, Repr

/-- The state the cache-aside core acts on: the catalog store (table
order) and the single `all_properties` cache slot (`none` = key absent). -/
structure SysState where
  store : List Property
  all_properties : Option CacheEntry
  deriving DecidableEq, Repr

/-- `cache.delete('all_properties')`: removes the key when the cache is
reachable, raises when it is not (the caller decides what to do with the
exception). Deleting an absent key is the same no-op as deleting a
present one. -/
def cache_delete (reachable : Bool) (_c : Option CacheEntry) :
    Except String (Option CacheEntry) :=
  if reachable then .ok none else .error "CacheUnavailable"

/-- `clear_properties_cache_on_save` (`signals.py` 9-18): `try:
cache.delete('all_properties')` with the exception logged and swallowed,
so the slot is cleared when the cache answers and left as it was when it
does not — and nothing ever propagates. -/
def clear_properties_cache_on_save (reachable : Bool) (c : Option CacheEntry) :
    Option CacheEntry :=
  match cache_delete reachable c with
  | .ok c2 => c2
  | .error _ => c

/-- `clear_properties_cache_on_delete` (`signals.py` 20-29): same body as
the save handler. -/
def clear_properties_cache_on_delete (reachable : Bool) (c : Option CacheEntry) :
    Option CacheEntry :=
  match cache_delete reachable c with
  | .ok c2 => c2
  | .error _ => c

/-- Upsert into the store: `Property.save()`'s effect on the table
(update the row with the same id, or append a new row). -/
def storeSave (p : Property) (store : List Property) : List Property :=
  if store.any (fun q => q.id == p.id) then
    store.map (fun q => if q.id == p.id then p else q)
  else
    store ++ [p]

/-- A create/update write event: the store commits the row, then Django
fires `post_save` and `clear_properties_cache_on_save` runs before the
write call returns. -/
def save_property (reachable : Bool) (p : Property) (s : SysState) : SysState :=
  { store := storeSave p s.store,
    all_properties := clear_properties_cache_on_save reachable s.all_properties }

/-- A delete write event: the store drops the row, then Django fires
`post_delete` and `clear_properties_cache_on_delete` runs before the
write call returns. -/
def delete_property (reachable : Bool) (pid : Nat) (s : SysState) : SysState :=
  { store := s.store.filter (fun q => q.id != pid),
    all_properties := clear_properties_cache_on_delete reachable s.all_properties }

/-- The loader of the catalog snapshot: `Property.objects.all().order_by('-created_at')`
materialized. -/
def loadAllProperties (store : List Property) : List Property :=
  orderByCreatedAtDesc store

/-- `get_all_properties` (`utils.py` 88-105): `cache.get('all_properties')`;
on a non-`None` value return it; otherwise run the loader against the
store (raising when the store is unavailable), `cache.set` the result
with TTL 3600, and return it. The result is the returned value (or the
propagated store fault), the post-call state, and whether the loader was
invoked. -/
def get_all_properties (storeAvailable : Bool) (s : SysState) :
    Except String (List Property) × SysState × Bool :=
  match s.all_properties with
  | some cached_properties => (.ok cached_properties.value, s, false)
  | none =>
    if storeAvailable then
      let properties := loadAllProperties s.store
      (.ok properties,
       { s with all_properties := some { value := properties, ttl := 3600 } },
       true)
    else
      (.error "StoreUnavailable", s, true)

/-- `update_property_favorite_status` (`utils.py` 247-261):
`Property.objects.get(id=property_id)` (raising `ValueError` via
`DoesNotExist` when absent), set `favorited`, `property.save()` (which
fires the `post_save` handler), then an explicit
`cache.delete('all_properties')` outside any `try`. -/
def update_property_favorite_status (reachable : Bool) (property_id : Nat)
    (favorite : Bool) (s : SysState) : Except String Property × SysState :=
  match s.store.find? (fun q => q.id == property_id) with
  | none => (.error "Property does not exist", s)
  | some property =>
    let property2 := { property with favorited := favorite }
    let s2 := save_property reachable property2 s
    match cache_delete reachable s2.all_properties with
    | .ok c2 => (.ok property2, { s2 with all_properties := c2 })
    | .error e => (.error e, s2)

/-- The fields of Redis `INFO` that `get_redis_cache_metrics` reads. -/
structure RedisInfo where
  keyspace_hits : Nat
  keyspace_misses : Nat
  used_memory : Nat
  used_memory_human : String
  evicted_keys : Nat
  expired_keys : Nat
  connected_clients : Nat
  deriving DecidableEq, Repr

/-- The dictionary `get_redis_cache_metrics` returns. `Option` fields
model dictionary keys that some branches leave out (`none` = key absent
from the returned dict). The `timestamp` entry is not modelled. -/
structure MetricsRecord where
  error : Option String
  keyspace_hits : Nat
  keyspace_misses : Nat
  total_requests : Nat
  hit_ratio : ℚ
  hit_ratio_percentage : ℚ
  used_memory : Option Nat
  used_memory_human : Option String
  evicted_keys : Option Nat
  expired_keys : Option Nat
  connected_clients : Option Nat
  deriving DecidableEq, Repr

/-- Python's `round(q, n)` over exact rationals: `q` rounded (half up)
to `n` decimal places. -/
def roundTo (n : Nat) (q : ℚ) : ℚ := (⌊q * 10 ^ n + 1 / 2⌋ : ℚ) / 10 ^ n

/-- `get_redis_cache_metrics` (`utils.py` 13-86). `conn` is the Redis
connection: `some info` when `redis_client.info()` answers, `none` when
it raises `redis.ConnectionError` — in which case the handler at lines
65-75 returns the error dictionary (which contains no `used_memory`,
`used_memory_human`, `evicted_keys`, `expired_keys` or
`connected_clients` keys). -/
def get_redis_cache_metrics (conn : Option RedisInfo) : MetricsRecord :=
  match conn with
  | some info =>
    let keyspace_hits := info.keyspace_hits
    let keyspace_misses := info.keyspace_misses
    let total_requests := keyspace_hits + keyspace_misses
    let hit_ratio : ℚ :=
      if 0 < total_requests then (keyspace_hits : ℚ) / (total_requests : ℚ) else 0
    { error := none,
      keyspace_hits := keyspace_hits,
      keyspace_misses := keyspace_misses,
      total_requests := total_requests,
      hit_ratio := roundTo 4 hit_ratio,
      hit_ratio_percentage := roundTo 2 (hit_ratio * 100),
      used_memory := some info.used_memory,
      used_memory_human := some info.used_memory_human,
      evicted_keys := some info.evicted_keys,
      expired_keys := some info.expired_keys,
      connected_clients := some info.connected_clients }
  | none =>
    { error := some "Redis connection failed",
      keyspace_hits := 0,
      keyspace_misses := 0,
      total_requests := 0,
      hit_ratio := 0,
      hit_ratio_percentage := 0,
      used_memory := none,
      used_memory_human := none,
      evicted_keys := none,
      expired_keys := none,
      connected_clients := none }

/-- One entry of the REST Countries response list (the only field the
source reads; `none` models a JSON object without a `cca2` key). -/
structure ApiCountry where
  cca2 : Option String
  deriving DecidableEq, Repr

/-- A country-code cache entry: the stored code and its TTL (seconds). -/
structure CountryCacheEntry where
  value : String
  ttl : Nat
  deriving DecidableEq, Repr

/-- The string cache, keyed by lowered character codes of the cache key
(an association list; first match wins, as a key-value store). -/
def cacheGet (m : List (List Nat × CountryCacheEntry)) (k : List Nat) :
    Option CountryCacheEntry :=
  (m.find? (fun kv => kv.1 == k)).map (fun kv => kv.2)

/-- ASCII uppering of a single character code (`str.upper()`). -/
def upperCode (c : Nat) : Nat :=
  if 97 ≤ c ∧ c ≤ 122 then c - 32 else c

/-- The cache key `f'country_code_{country_name.lower()}'` as character
codes. -/
def countryKey (country_name : String) : List Nat :=
  lowerCodes "country_code_" ++ lowerCodes country_name

/-- The API branch of `get_country_code` (`utils.py` 117-134): reached
when the truthiness gate on the cached value fails. On `RequestException`
(`api name = none`) or an empty response list, return `None` without
touching the cache; otherwise uppercase `data[0].get('cca2', '')`, cache
it under `cache_key` for `60 * 60 * 24` seconds, and return it. -/
def get_country_code_fetch (api : String → Option (List ApiCountry))
    (cacheMap : List (List Nat × CountryCacheEntry)) (country_name : String)
    (cache_key : List Nat) :
    Option String × List (List Nat × CountryCacheEntry) × Bool :=
  match api country_name with
  | none => (none, cacheMap, true)
  | some [] => (none, cacheMap, true)
  | some (first :: _) =>
    let country_code : String :=
      ⟨((first.cca2.getD "").data.map fun c => Char.ofNat (upperCode c.toNat))⟩
    ((some country_code),
     (cache_key, { value := country_code, ttl := 60 * 60 * 24 }) :: cacheMap,
     true)

/-- `get_country_code` (`utils.py` 107-134). `api name` is the REST
Countries lookup: `none` when the request raises `RequestException`,
`some entries` for a parsed JSON list. The source checks the cached
value with `if cached_code:` (truthiness), serves it only when it is a
non-empty string, otherwise queries the API; on a non-empty response
list it uppercases `data[0].get('cca2', '')`, caches it for
`60 * 60 * 24` seconds and returns it; on an exception or an empty list
it returns `None` and caches nothing. Result: returned value, post-call
cache, and whether the external API was queried. -/
def get_country_code (api : String → Option (List ApiCountry))
    (cacheMap : List (List Nat × CountryCacheEntry)) (country_name : String) :
    Option String × List (List Nat × CountryCacheEntry) × Bool :=
  let cache_key := countryKey country_name
  let cached_code := cacheGet cacheMap cache_key
  match cached_code with
  | some entry =>
    if entry.value.isEmpty then
      get_country_code_fetch api cacheMap country_name cache_key
    else
      (some entry.value, cacheMap, false)
  | none => get_country_code_fetch api cacheMap country_name cache_key

/-! ## Helper lemmas -/

theorem containsSub_nil (hay : List Nat) : containsSub [] hay = true := by
  cases hay <;> simp [containsSub, List.isPrefixOf]

theorem icontains_empty (field : String) : icontains field "" = true := by
  simp [icontains, lowerCodes, containsSub_nil]

theorem isEmpty_false_of_ne (s : String) (h : s ≠ "") : s.isEmpty = false := by
  rcases he : s.isEmpty with _ | _
  · rfl
  · exact absurd ((String.isEmpty_iff s).mp he) h

theorem codeCategoryTest_eq (cat : Option String) (pcat : String)
    (h : cat ≠ some "") : codeCategoryTest cat pcat = specCategoryTest cat pcat := by
  cases cat with
  | none => rfl
  | some c =>
    have hne : c ≠ "" := fun he => h (by rw [he])
    simp [codeCategoryTest, specCategoryTest, truthyStr, isEmpty_false_of_ne c hne]

theorem codeIntMinTest_eq (n : Option Int) (v : Int) (hv : 0 ≤ v) :
    codeIntMinTest n v = specIntMinTest n v := by
  cases n with
  | none => rfl
  | some m =>
    rcases eq_or_ne m 0 with rfl | hm
    · simp [codeIntMinTest, specIntMinTest, truthyInt, hv]
    · simp [codeIntMinTest, specIntMinTest, truthyInt, hm]

theorem codeCountryTest_eq (c : Option String) (pcountry : String) :
    codeCountryTest c pcountry = specCountryTest c pcountry := by
  cases c with
  | none => rfl
  | some v =>
    rcases eq_or_ne v "" with rfl | hv
    · simp [codeCountryTest, specCountryTest, truthyStr, icontains_empty]
    · simp [codeCountryTest, specCountryTest, truthyStr, isEmpty_false_of_ne v hv]

theorem specSearchTest_of_not_truthy (t : Option String) (p : Property)
    (h : truthyStr t = false) : specSearchTest t p = true := by
  cases t with
  | none => rfl
  | some v =>
    have hv : v.isEmpty = true := by simpa [truthyStr] using h
    rw [(String.isEmpty_iff v).mp hv]
    simp [specSearchTest, icontains_empty]

/-- Under the data-model invariant (non-negative bedrooms, bathrooms and
guests), a present category being an actual (non-empty) category value,
and a search term that does not reach the raising branch (absent or
empty), the source's truthiness-gated predicate chain coincides with the
specification's conjunction of present predicates. -/
theorem matchesFilters_eq_satisfiesSpecFilters (filters : FilterSpec) (p : Property)
    (hcat : filters.category ≠ some "")
    (hsearch : truthyStr filters.search = false)
    (hbed : 0 ≤ p.bedrooms) (hbath : 0 ≤ p.bathrooms) (hgue : 0 ≤ p.guests) :
    matchesFilters filters p = satisfiesSpecFilters filters p := by
  unfold matchesFilters satisfiesSpecFilters
  rw [codeCategoryTest_eq filters.category p.category hcat,
    codeIntMinTest_eq filters.bedrooms p.bedrooms hbed,
    codeIntMinTest_eq filters.bathrooms p.bathrooms hbath,
    codeIntMinTest_eq filters.guests p.guests hgue,
    codeCountryTest_eq filters.country p.country,
    specSearchTest_of_not_truthy filters.search p hsearch,
    Bool.and_true]

/-! ## Example records (spec §8's A and B, and tie-breaking examples) -/

/-- Example catalog row A of spec §8: category house, price 100, France. -/
def exA : Property :=
  ⟨1, "Alpine retreat", "quiet chalet", 100, 2, 1, 4, "France", "FR", "house", false, 2⟩

/-- Example catalog row B of spec §8: category villa, price 300, Spain. -/
def exB : Property :=
  ⟨2, "Beach villa", "sunny coast", 300, 4, 3, 8, "Spain", "ES", "villa", true, 1⟩

/-! ## Claims -/

/-- C1: for every successful create/update (`post_save`) or delete
(`post_delete`) of a Property with the cache reachable, the signal
handler deletes the `all_properties` key synchronously before the write
call returns, so any read issued after the write sees a cache miss
(loader invoked) and returns data loaded from the post-write store —
never a pre-write snapshot. -/
theorem C1_write_invalidates_before_return (s : SysState) (p : Property) (pid : Nat) :
    (save_property true p s).all_properties = none ∧
    (delete_property true pid s).all_properties = none ∧
    get_all_properties true (save_property true p s) =
      (.ok (loadAllProperties (storeSave p s.store)),
       ⟨storeSave p s.store, some ⟨loadAllProperties (storeSave p s.store), 3600⟩⟩,
       true) ∧
    get_all_properties true (delete_property true pid s) =
      (.ok (loadAllProperties (s.store.filter (fun q => q.id != pid))),
       ⟨s.store.filter (fun q => q.id != pid),
        some ⟨loadAllProperties (s.store.filter (fun q => q.id != pid)), 3600⟩⟩,
       true) :=
  ⟨rfl, rfl, rfl, rfl⟩

/-- C2: the cache populator returns a present cached value unchanged and
without invoking the loader; on a miss it loads from the store, caches
the result under TTL 3600, and returns it; a second call right after a
miss serves the same value from the cache without the loader. -/
theorem C2_cache_populator (s : SysState) :
    (∀ e, s.all_properties = some e →
      get_all_properties true s = (.ok e.value, s, false)) ∧
    (s.all_properties = none →
      get_all_properties true s =
        (.ok (loadAllProperties s.store),
         ⟨s.store, some ⟨loadAllProperties s.store, 3600⟩⟩, true) ∧
      get_all_properties true (get_all_properties true s).2.1 =
        (.ok (loadAllProperties s.store), (get_all_properties true s).2.1, false)) := by
  obtain ⟨store, cache⟩ := s
  constructor
  · intro e he
    simp only at he
    subst he
    rfl
  · intro he
    simp only at he
    subst he
    exact ⟨rfl, rfl⟩

/-- Witness for C2 at a concrete miss state over the two-row store. -/
theorem C2_cache_populator_witness :
    (SysState.mk [exA, exB] none).all_properties = none ∧
    (get_all_properties true ⟨[exA, exB], none⟩ =
      (.ok (loadAllProperties [exA, exB]),
       ⟨[exA, exB], some ⟨loadAllProperties [exA, exB], 3600⟩⟩, true) ∧
     get_all_properties true (get_all_properties true ⟨[exA, exB], none⟩).2.1 =
      (.ok (loadAllProperties [exA, exB]),
       (get_all_properties true ⟨[exA, exB], none⟩).2.1, false)) :=
  ⟨rfl, (C2_cache_populator ⟨[exA, exB], none⟩).2 rfl⟩

/-- C6: when the cache is unreachable, the invalidation attempt fails
(`cache_delete` raises), the signal handlers swallow the fault (cache
slot left as it was, nothing propagates), and the write's store effect
is exactly the same as with a reachable cache. -/
theorem C6_invalidation_failure_swallowed (s : SysState) (p : Property) (pid : Nat) :
    cache_delete false s.all_properties = .error "CacheUnavailable" ∧
    clear_properties_cache_on_save false s.all_properties = s.all_properties ∧
    clear_properties_cache_on_delete false s.all_properties = s.all_properties ∧
    (save_property false p s).store = (save_property true p s).store ∧
    (delete_property false pid s).store = (delete_property true pid s).store ∧
    (save_property false p s).all_properties = s.all_properties ∧
    (delete_property false pid s).all_properties = s.all_properties :=
  ⟨rfl, rfl, rfl, rfl, rfl, rfl, rfl⟩

/-- C8: on a cache miss with the store unavailable, the loader failure
propagates to the read caller and the state — in particular the cache —
is unchanged: no entry is written under the snapshot key. -/
theorem C8_store_failure_propagates (s : SysState) (h : s.all_properties = none) :
    (get_all_properties false s).1 = .error "StoreUnavailable" ∧
    (get_all_properties false s).2.1 = s := by
  obtain ⟨store, cache⟩ := s
  simp only at h
  subst h
  exact ⟨rfl, rfl⟩

/-- Witness for C8 at a concrete miss state. -/
theorem C8_store_failure_witness :
    (SysState.mk [exA] none).all_properties = none ∧
    ((get_all_properties false ⟨[exA], none⟩).1 = .error "StoreUnavailable" ∧
     (get_all_properties false ⟨[exA], none⟩).2.1 = ⟨[exA], none⟩) :=
  ⟨rfl, C8_store_failure_propagates ⟨[exA], none⟩ rfl⟩

/-- C9: a favorite-status mutation targeting an id absent from the store
reports the miss as an error and returns the state unchanged — the
snapshot key is not deleted and nothing is written to the cache. -/
theorem C9_not_found_no_cache_effect (reachable : Bool) (pid : Nat) (fav : Bool)
    (s : SysState) (h : s.store.find? (fun q => q.id == pid) = none) :
    update_property_favorite_status reachable pid fav s =
      (.error "Property does not exist", s) := by
  simp [update_property_favorite_status, h]

/-- Witness for C9: id 99 misses the one-row store, state untouched. -/
theorem C9_not_found_witness :
    ([exA].find? (fun q => q.id == 99) = none) ∧
    update_property_favorite_status true 99 true ⟨[exA], some ⟨[exA], 3600⟩⟩ =
      (.error "Property does not exist", ⟨[exA], some ⟨[exA], 3600⟩⟩) :=
  ⟨rfl, C9_not_found_no_cache_effect true 99 true ⟨[exA], some ⟨[exA], 3600⟩⟩ rfl⟩

theorem roundTo_zero (n : Nat) : roundTo n 0 = 0 := by
  simp [roundTo]
  norm_num

/-- C3: for every pair of counters read from the cache, the snapshot
reports total_requests = H + M, hit_ratio = H / (H + M) rounded to 4
decimal places (exactly 0 when H + M = 0, with no division performed),
and hit_ratio_percentage = (H / (H + M)) × 100 rounded to 2 decimal
places. -/
theorem C3_metrics_derivation (info : RedisInfo) :
    (get_redis_cache_metrics (some info)).total_requests =
      info.keyspace_hits + info.keyspace_misses ∧
    (get_redis_cache_metrics (some info)).hit_ratio =
      (if info.keyspace_hits + info.keyspace_misses = 0 then 0
       else roundTo 4
        ((info.keyspace_hits : ℚ) / ((info.keyspace_hits : ℚ) + (info.keyspace_misses : ℚ)))) ∧
    (get_redis_cache_metrics (some info)).hit_ratio_percentage =
      (if info.keyspace_hits + info.keyspace_misses = 0 then 0
       else roundTo 2
        ((info.keyspace_hits : ℚ) / ((info.keyspace_hits : ℚ) + (info.keyspace_misses : ℚ)) * 100)) := by
  simp only [get_redis_cache_metrics]
  rcases Nat.eq_zero_or_pos (info.keyspace_hits + info.keyspace_misses) with h | h
  · simp [h, roundTo_zero]
  · have h0 : info.keyspace_hits + info.keyspace_misses ≠ 0 := Nat.pos_iff_ne_zero.mp h
    rw [if_pos h, if_neg h0, if_neg h0]
    refine ⟨trivial, ?_, ?_⟩ <;> push_cast <;> rfl

/-- C7 counterexample: on a lost connection the error dictionary has no
`used_memory`, `evicted_keys`, `expired_keys` or `connected_clients`
keys at all — those counters are absent, not zeroed. -/
theorem C7_counterexample :
    ¬ ((get_redis_cache_metrics none).used_memory = some 0 ∧
       (get_redis_cache_metrics none).evicted_keys = some 0 ∧
       (get_redis_cache_metrics none).expired_keys = some 0 ∧
       (get_redis_cache_metrics none).connected_clients = some 0) := by
  intro h
  exact Option.noConfusion h.1

/-- C7 amended: when the cache connection is unavailable the metrics
call still returns (it cannot raise, being a total function of the
connection state) a record with an explicit error indicator, with
keyspace_hits, keyspace_misses, total_requests, hit_ratio and
hit_ratio_percentage zeroed, and with used_memory, used_memory_human,
evicted_keys, expired_keys and connected_clients omitted from the
record rather than zeroed. -/
theorem C7_amended_error_record :
    (get_redis_cache_metrics none).error = some "Redis connection failed" ∧
    (get_redis_cache_metrics none).keyspace_hits = 0 ∧
    (get_redis_cache_metrics none).keyspace_misses = 0 ∧
    (get_redis_cache_metrics none).total_requests = 0 ∧
    (get_redis_cache_metrics none).hit_ratio = 0 ∧
    (get_redis_cache_metrics none).hit_ratio_percentage = 0 ∧
    (get_redis_cache_metrics none).used_memory = none ∧
    (get_redis_cache_metrics none).used_memory_human = none ∧
    (get_redis_cache_metrics none).evicted_keys = none ∧
    (get_redis_cache_metrics none).expired_keys = none ∧
    (get_redis_cache_metrics none).connected_clients = none :=
  ⟨rfl, rfl, rfl, rfl, rfl, rfl, rfl, rfl, rfl, rfl, rfl⟩

/-- C4 (code bug): the claimed search semantics are the spec's clear
intent, but `utils.py` never binds the name `models`, so the search
branch (lines 222-226) raises `NameError` for any truthy search term —
at the claim's own failing input {search="Spain"} over the §8 store
{A, B} the code raises instead of returning [B]. The rest of the claim
matches the code: for search-free specs (with a present category a
non-empty value, over stores satisfying the data-model invariant of
non-negative bedrooms/bathrooms/guests) the engine returns exactly the
rows satisfying the conjunction of present predicates, and the other
two claimed examples {category=house} → [A] and {min_price=150} → [B]
hold exactly. -/
theorem C4_filter_search_name_error :
    (∀ (filters : FilterSpec) (db : List Property),
      filters.category ≠ some "" →
      truthyStr filters.search = false →
      (∀ p ∈ db, 0 ≤ p.bedrooms ∧ 0 ≤ p.bathrooms ∧ 0 ≤ p.guests) →
      get_properties_by_filters filters db =
        .ok (orderByCreatedAtDesc (db.filter (matchesFilters filters))) ∧
      ∀ p : Property,
        p ∈ orderByCreatedAtDesc (db.filter (matchesFilters filters)) ↔
          p ∈ db ∧ satisfiesSpecFilters filters p = true) ∧
    get_properties_by_filters { category := some "house" } [exA, exB] = .ok [exA] ∧
    get_properties_by_filters { min_price := some 150 } [exA, exB] = .ok [exB] ∧
    get_properties_by_filters { search := some "Spain" } [exA, exB] =
      .error "NameError: name 'models' is not defined" := by
  refine ⟨?_, by decide, by decide, by decide⟩
  intro filters db hcat hsearch hinv
  refine ⟨by simp [get_properties_by_filters, hsearch], ?_⟩
  intro p
  unfold orderByCreatedAtDesc
  rw [List.mem_insertionSort, List.mem_filter]
  constructor
  · rintro ⟨hmem, hmatch⟩
    refine ⟨hmem, ?_⟩
    rw [← matchesFilters_eq_satisfiesSpecFilters filters p hcat hsearch (hinv p hmem).1
      (hinv p hmem).2.1 (hinv p hmem).2.2]
    exact hmatch
  · rintro ⟨hmem, hsat⟩
    refine ⟨hmem, ?_⟩
    rw [matchesFilters_eq_satisfiesSpecFilters filters p hcat hsearch (hinv p hmem).1
      (hinv p hmem).2.1 (hinv p hmem).2.2]
    exact hsat

/-- Witness for C4 at the concrete example filter and store. -/
theorem C4_filter_search_name_error_witness :
    ((some "house" : Option String) ≠ some "") ∧
    truthyStr (none : Option String) = false ∧
    (∀ p ∈ [exA, exB], 0 ≤ p.bedrooms ∧ 0 ≤ p.bathrooms ∧ 0 ≤ p.guests) ∧
    (get_properties_by_filters { category := some "house" } [exA, exB] =
      .ok (orderByCreatedAtDesc ([exA, exB].filter (matchesFilters { category := some "house" }))) ∧
     ∀ p : Property,
       p ∈ orderByCreatedAtDesc ([exA, exB].filter (matchesFilters { category := some "house" })) ↔
         p ∈ [exA, exB] ∧ satisfiesSpecFilters { category := some "house" } p = true) :=
  ⟨by decide, by decide, by decide,
   C4_filter_search_name_error.1 { category := some "house" } [exA, exB]
     (by decide) (by decide) (by decide)⟩

/-- The output ordering claimed in §4.3: descending by created_at with
ties between equal created_at values broken by id descending. -/
def specOrdered (l : List Property) : Prop :=
  List.Sorted
    (fun a b => b.created_at < a.created_at ∨ (a.created_at = b.created_at ∧ b.id < a.id)) l

/-- Two rows with the same created_at, stored in ascending id order. -/
def tieA : Property := ⟨1, "first", "", 100, 1, 1, 2, "France", "FR", "house", false, 5⟩

/-- Second row of the created_at tie. -/
def tieB : Property := ⟨2, "second", "", 100, 1, 1, 2, "France", "FR", "house", false, 5⟩

/-- C5 counterexample: the source orders only by `-created_at`
(`Meta.ordering`, no secondary key), so rows whose created_at ties are
returned in store order — id ascending here — and the claimed
id-descending tie-break fails. -/
theorem C5_counterexample :
    get_properties_by_filters {} [tieA, tieB] = .ok [tieA, tieB] ∧
    ¬ specOrdered [tieA, tieB] := by
  constructor
  · decide
  · intro h
    simp only [specOrdered] at h
    exact absurd ((List.sorted_cons.mp h).1 tieB (by simp)) (by decide)

/-- C5 amended: whenever the engine returns a sequence (a truthy search
term instead raises the unbound-name error, see
`get_properties_by_filters`), that sequence is ordered descending by
created_at (ties are left in the store's order, with no id tie-break)
and is a permutation of the rows passing the filter chain; being a pure
function of the spec and store, repeated calls against unchanged data
return the identical ordered result. -/
theorem C5_amended_ordering (filters : FilterSpec) (db : List Property)
    (l : List Property) (h : get_properties_by_filters filters db = .ok l) :
    List.Sorted createdDesc l ∧
    List.Perm l (db.filter (matchesFilters filters)) := by
  unfold get_properties_by_filters at h
  split at h
  · exact absurd h (by simp)
  · have hl : orderByCreatedAtDesc (db.filter (matchesFilters filters)) = l := by
      simpa using h
    subst hl
    exact ⟨List.sorted_insertionSort createdDesc _, List.perm_insertionSort createdDesc _⟩

/-- Witness for the amended C5 at a concrete spec and store. -/
theorem C5_amended_ordering_witness :
    get_properties_by_filters {} [tieA, tieB] = .ok [tieA, tieB] ∧
    (List.Sorted createdDesc [tieA, tieB] ∧
     List.Perm [tieA, tieB] ([tieA, tieB].filter (matchesFilters {}))) :=
  ⟨by decide, C5_amended_ordering {} [tieA, tieB] [tieA, tieB] (by decide)⟩

/-- C10: when the external resolution of a country name yields an empty
code, `get_country_code` caches the empty string under
`country_code_<lowercased name>` with a 24-hour (86400 s) TTL and
returns it; yet a later call finds the cached empty string falsy at the
`if cached_code:` gate, treats it as a miss and queries the API again
(caching another entry); only a non-empty cached code is ever served
from the cache without an API call. -/
theorem C10_empty_code_never_served (api : String → Option (List ApiCountry))
    (cacheMap : List (List Nat × CountryCacheEntry)) (country_name : String)
    (first : ApiCountry) (rest : List ApiCountry)
    (hapi : api country_name = some (first :: rest))
    (hempty : first.cca2.getD "" = "")
    (hmiss : ∀ e, cacheGet cacheMap (countryKey country_name) = some e → e.value = "") :
    get_country_code api cacheMap country_name =
      (some "", (countryKey country_name, ⟨"", 60 * 60 * 24⟩) :: cacheMap, true) ∧
    get_country_code api
        ((countryKey country_name, ⟨"", 60 * 60 * 24⟩) :: cacheMap) country_name =
      (some "",
       (countryKey country_name, ⟨"", 60 * 60 * 24⟩) ::
         (countryKey country_name, ⟨"", 60 * 60 * 24⟩) :: cacheMap,
       true) ∧
    (∀ (m2 : List (List Nat × CountryCacheEntry)) (e : CountryCacheEntry),
       cacheGet m2 (countryKey country_name) = some e → e.value ≠ "" →
       get_country_code api m2 country_name = (some e.value, m2, false)) := by
  have hfetch : ∀ m : List (List Nat × CountryCacheEntry),
      get_country_code_fetch api m country_name (countryKey country_name) =
        (some "", (countryKey country_name, ⟨"", 60 * 60 * 24⟩) :: m, true) := by
    intro m
    simp only [get_country_code_fetch, hapi, hempty]
    rfl
  refine ⟨?_, ?_, ?_⟩
  · simp only [get_country_code]
    rcases heq : cacheGet cacheMap (countryKey country_name) with _ | e
    · exact hfetch cacheMap
    · have hv : e.value = "" := hmiss e heq
      simp [hv, hfetch cacheMap, show ("" : String).isEmpty = true by decide]
  · simp only [get_country_code]
    have heq : cacheGet ((countryKey country_name, ⟨"", 60 * 60 * 24⟩) :: cacheMap)
        (countryKey country_name) = some ⟨"", 60 * 60 * 24⟩ := by
      simp [cacheGet, List.find?]
    rw [heq]
    simpa using hfetch ((countryKey country_name, ⟨"", 60 * 60 * 24⟩) :: cacheMap)
  · intro m2 e heq hne
    simp only [get_country_code]
    rw [heq]
    simp [isEmpty_false_of_ne e.value hne]

/-- A REST Countries stub resolving one name to a record whose `cca2`
field is empty. -/
def apiAtlantis : String → Option (List ApiCountry) :=
  fun n => if n == "Atlantis" then some [⟨some ""⟩] else none

/-- Witness for C10 on `apiAtlantis` with an empty starting cache. -/
theorem C10_empty_code_witness :
    apiAtlantis "Atlantis" = some [⟨some ""⟩] ∧
    ((⟨some ""⟩ : ApiCountry).cca2.getD "" = "") ∧
    get_country_code apiAtlantis [] "Atlantis" =
      (some "", [(countryKey "Atlantis", ⟨"", 60 * 60 * 24⟩)], true) :=
  ⟨rfl, rfl,
   (C10_empty_code_never_served apiAtlantis [] "Atlantis" ⟨some ""⟩ [] rfl rfl
     (fun e h => by simp [cacheGet] at h)).1⟩
